import Mathlib

set_option maxHeartbeats 1000000

/-!
Shallow embedding of the Shopify CSV builder pipeline (`app.py`): variant
expansion, handle/serial assignment, enrichment, quantity resolution and the
final output schema, together with proofs of the specified properties.
-/

namespace ShopifyBuilder

/-- Whitespace removed from both ends of a character list; used to model
Python's `str.strip()`. -/
def trimChars (l : List Char) : List Char :=
  ((l.dropWhile Char.isWhitespace).reverse.dropWhile Char.isWhitespace).reverse

/-- Python `str.strip()`. -/
def strTrim (s : String) : String :=
  String.mk (trimChars s.data)

/-- Python `str.lower()` (ASCII range). -/
def strToLower (s : String) : String :=
  String.mk (s.data.map Char.toLower)

/-- Split a character list at every occurrence of a separator character. -/
def splitOnCharList (sep : Char) : List Char → List (List Char)
  | [] => [[]]
  | c :: cs =>
    let r := splitOnCharList sep cs
    if c = sep then [] :: r
    else
      match r with
      | [] => [[c]]
      | h :: t => (c :: h) :: t

/-- Python `str.split(sep)` for a one-character separator. -/
def strSplitOnChar (sep : Char) (s : String) : List String :=
  (splitOnCharList sep s.data).map String.mk

/-- Join strings with a one-character separator; used to model the remainder
of Python's `str.split(sep, 1)`. -/
def joinWithChar (sep : Char) : List String → String
  | [] => ""
  | [x] => x
  | x :: y :: rest => x ++ String.mk [sep] ++ joinWithChar sep (y :: rest)

/-- Characters kept by the slug cleaning step: the regex `[^\w\s-]` is removed
(`app.py` line 450), so word characters (alphanumeric or underscore),
whitespace and hyphens survive. -/
def keptBySlugClean (c : Char) : Bool :=
  c.isAlphanum || c = '_' || c.isWhitespace || c = '-'

/-- Removal of special characters: `str.replace(r"[^\w\s-]", "")`
(`app.py` line 450). -/
def stripNonWord (s : String) : String :=
  String.mk (s.data.filter keptBySlugClean)

/-- Replace each run of whitespace with a single hyphen; the Boolean records
whether the previous character was whitespace. -/
def collapseWsAux : List Char → Bool → List Char
  | [], _ => []
  | c :: cs, prevWs =>
    if c.isWhitespace then
      if prevWs then collapseWsAux cs true
      else '-' :: collapseWsAux cs true
    else c :: collapseWsAux cs false

/-- Whitespace-run collapsing: `str.replace(r"\s+", "-")` (`app.py` line 451). -/
def collapseWs (s : String) : String :=
  String.mk (collapseWsAux s.data false)

/-- Base-handle (slug) derivation from a title: strip, remove special
characters, collapse whitespace runs to hyphens, lowercase
(`app.py` lines 449-452). -/
def slug (title : String) : String :=
  strToLower (collapseWs (stripNonWord (strTrim title)))

/-- Comma tokenisation with trimming and dropping of empty tokens:
`[s.strip() for s in str(...).split(",") if s.strip()]` (`app.py` lines 280-281). -/
def splitTokens (s : String) : List String :=
  ((strSplitOnChar ',' s).map strTrim).filter (fun t => t ≠ "")

/-- Empty token lists are replaced by a single empty-string placeholder
(`app.py` lines 284-287). -/
def tokensOrDefault (s : String) : List String :=
  let ts := splitTokens s
  if ts = [] then [""] else ts

/-- One input record.  Fields read through `row.get(..., default)` in the
source are optional here; `none` models a missing column. -/
structure SourceRow where
  title : String
  description : String
  size : Option String
  colour : Option String
  productCode : Option String
  productCategory : Option String
  productType : Option String
  published : Option String
deriving DecidableEq

/-- The three processing modes offered by the radio selector (`app.py`
lines 88-98). -/
inductive Mode
  | template
  | simple
  | full
deriving DecidableEq

/-- The external text-generation collaborator: a prompt either yields a
response text or fails. -/
abbrev Collab := String → Except String String

/-- Prompt of the rewrite-and-tag call (`app.py` lines 198-206). -/
def rewritePrompt (text : String) : String :=
  "You are a top-tier Shopify copywriter.\n" ++
  "1) Rewrite this product description to be clear, engaging, and on-brand.\n" ++
  "2) Then output on the next line exactly five comma-separated tags.\n\n" ++
  "Original description:\n\"\"\"\n" ++ text ++ "\n\"\"\"\n\n" ++
  "Respond with exactly two lines:\n" ++
  "- Line 1: your rewritten description\n" ++
  "- Line 2: tag1,tag2,tag3,tag4,tag5"

/-- Prompt of the tag-only call (`app.py` lines 219-225). -/
def tagPrompt (text : String) : String :=
  "You are an expert Shopify copywriter.\n" ++
  "Suggest exactly five comma-separated Shopify tags for this product description:\n\n" ++
  "\"\"\"\n" ++ text ++ "\n\"\"\"\n\n" ++
  "Respond with a single line:\n" ++
  "tag1,tag2,tag3,tag4,tag5"

/-- Result of one enrichment computation: description, tag string, and any
warnings surfaced via `st.warning`. -/
structure EnrichResult where
  desc : String
  tags : String
  warnings : List String
deriving DecidableEq

/-- Result of a tag-only call. -/
structure TagsResult where
  tags : String
  warnings : List String
deriving DecidableEq

/-- `refine_and_tag` (`app.py` lines 194-213): with AI disabled return the text
with empty tags; on success split the trimmed response at the first newline
(`split("\n", 1)`) into description and tags; on failure warn and fall back to
the original text with empty tags. -/
def refine_and_tag (aiEnabled : Bool) (collab : Collab) (text : String) : EnrichResult :=
  if aiEnabled = false then { desc := text, tags := "", warnings := [] }
  else
    match collab (rewritePrompt text) with
    | Except.ok respText =>
        match strSplitOnChar '\n' (strTrim respText) with
        | [] => { desc := "", tags := "", warnings := [] }
        | [p0] => { desc := strTrim p0, tags := "", warnings := [] }
        | p0 :: p1 :: rest =>
            { desc := strTrim p0
              tags := strTrim (joinWithChar '\n' (p1 :: rest))
              warnings := [] }
    | Except.error e =>
        { desc := text, tags := "", warnings := ["AI processing failed: " ++ e] }

/-- `tags_only` (`app.py` lines 215-231): with AI disabled return empty tags;
on success the trimmed response; on failure warn and return empty tags. -/
def tags_only (aiEnabled : Bool) (collab : Collab) (text : String) : TagsResult :=
  if aiEnabled = false then { tags := "", warnings := [] }
  else
    match collab (tagPrompt text) with
    | Except.ok respText => { tags := strTrim respText, warnings := [] }
    | Except.error e => { tags := "", warnings := ["AI tag generation failed: " ++ e] }

/-- Text up to the first `"."`, then stripped:
`original.split(".", 1)[0].strip()` (`app.py` line 261). -/
def firstSentence (s : String) : String :=
  strTrim (List.headD (strSplitOnChar '.' s) s)

/-- Per-row enrichment dispatch (`app.py` lines 256-265). -/
def enrichRow (mode : Mode) (aiEnabled : Bool) (collab : Collab) (r : SourceRow) : EnrichResult :=
  match mode with
  | Mode.template =>
      { desc := strTrim r.title ++ " - " ++ strTrim (r.productCategory.getD "")
        tags := ""
        warnings := [] }
  | Mode.simple =>
      let firstSent := firstSentence r.description
      let t := tags_only aiEnabled collab firstSent
      { desc := firstSent, tags := t.tags, warnings := t.warnings }
  | Mode.full => refine_and_tag aiEnabled collab r.description

/-- One exploded record: a copy of its source row plus one size token, one
colour token and the broadcast enrichment results (`app.py` lines 277-295). -/
structure ExplodedRow where
  src : SourceRow
  sizeValue : String
  colourValue : String
  customDescription : String
  aiTags : String
deriving DecidableEq

/-- Variant expansion of one source row: the cross product of its size tokens
and colour tokens, outer loop over sizes (`app.py` lines 279-295). -/
def explodeOne (mode : Mode) (aiEnabled : Bool) (collab : Collab) (r : SourceRow) : List ExplodedRow :=
  let e := enrichRow mode aiEnabled collab r
  (tokensOrDefault (r.size.getD "")).flatMap (fun s =>
    (tokensOrDefault (r.colour.getD "")).map (fun c =>
      { src := r, sizeValue := s, colourValue := c
        customDescription := e.desc, aiTags := e.tags }))

/-- Variant expansion of the whole table (`app.py` lines 278-297). -/
def explodedRows (mode : Mode) (aiEnabled : Bool) (collab : Collab) (rows : List SourceRow) : List ExplodedRow :=
  rows.flatMap (explodeOne mode aiEnabled collab)

/-- First occurrence of each value, in order of first appearance: the order
produced by pandas `Series.unique()` and by the uniqueness scan of
`app.py` lines 314-322. -/
def firstSeen {α : Type} [DecidableEq α] : List α → List α
  | [] => []
  | a :: l => a :: (firstSeen l).filter (fun b => b ≠ a)

/-- Index of the first occurrence of `a` (the `enumerate` index in the
serial-map comprehension, `app.py` line 456). -/
def idxOfD {α : Type} [DecidableEq α] (a : α) : List α → Nat
  | [] => 0
  | b :: l => if b = a then 0 else idxOfD a l + 1

/-- Python `str.zfill`: left-pad with `'0'` up to the requested width, never
truncating. -/
def zfill (width : Nat) (s : String) : String :=
  if width ≤ s.length then s else String.mk (List.replicate (width - s.length) '0' ++ s.data)

/-- The `_base_handle` column of an exploded row (`app.py` line 449). -/
def baseHandle (v : ExplodedRow) : String :=
  slug v.src.title

/-- The `_base_handle` column of the exploded table. -/
def explodedSlugs (l : List ExplodedRow) : List String :=
  l.map baseHandle

/-- Serial of a base handle: position in the first-seen unique list, plus one,
rendered in decimal and zero-filled to width 2
(`handle_serial_map`, `app.py` lines 455-457). -/
def serialFor (slugs : List String) (s : String) : String :=
  zfill 2 (Nat.repr (idxOfD s (firstSeen slugs) + 1))

/-- Final handle: base handle, hyphen, serial (`app.py` line 458). -/
def handleFor (slugs : List String) (s : String) : String :=
  s ++ "-" ++ serialFor slugs s

/-- The session-state quantity dictionary, modelled as an association list in
which the most recent write for a key shadows older entries. -/
abbrev QtyMap := List (String × Nat)

/-- Dictionary write `m[k] = q`. -/
def setKey (m : QtyMap) (k : String) (q : Nat) : QtyMap :=
  (k, q) :: m

/-- Dictionary lookup `m.get(k)`. -/
def lookupKey (m : QtyMap) (k : String) : Option Nat :=
  (m.find? (fun p => p.1 == k)).map (fun p => p.2)

/-- The `(size, color, title)` tuple of an exploded row, each component
stringified and stripped (`app.py` lines 315-319). -/
def variantTuple (v : ExplodedRow) : String × String × String :=
  (strTrim v.sizeValue, strTrim v.colourValue, strTrim v.src.title)

/-- The string key `f"{size}|{color}|{title}"` built from a tuple
(`app.py` line 336). -/
def keyOfTuple (t : String × String × String) : String :=
  t.1 ++ "|" ++ t.2.1 ++ "|" ++ t.2.2

/-- First-seen unique variant tuples of the exploded table
(`app.py` lines 314-322). -/
def uniqueVariants (l : List ExplodedRow) : List (String × String × String) :=
  firstSeen (l.map variantTuple)

/-- The `_variant_key` column: stripped size, colour and title joined by `"|"`
(`app.py` lines 442-444). -/
def rowKey (v : ExplodedRow) : String :=
  strTrim v.sizeValue ++ "|" ++ strTrim v.colourValue ++ "|" ++ strTrim v.src.title

/-- Pre-population of the quantity dictionary with the default quantity
(`app.py` lines 334-337). -/
def prepopulateDefaults (uniq : List (String × String × String)) (defaultQty : Nat) : QtyMap :=
  uniq.foldl (fun m t => setKey m (keyOfTuple t) defaultQty) []

/-- The guarded initialisation `if 'variant_quantities' not in st.session_state`
(`app.py` lines 332-337): pre-population happens only when the dictionary is
absent from the session. -/
def initVariantQuantities (sessionQty : Option QtyMap) (uniq : List (String × String × String))
    (defaultQty : Nat) : QtyMap :=
  match sessionQty with
  | some m => m
  | none => prepopulateDefaults uniq defaultQty

/-- The bulk pass (`app.py` lines 339-344): when bulk mode is on, every unique
variant key is overwritten with the bulk quantity. -/
def applyBulk (bulkMode : Bool) (bulkQty : Nat) (uniq : List (String × String × String))
    (m : QtyMap) : QtyMap :=
  if bulkMode then uniq.foldl (fun acc t => setKey acc (keyOfTuple t) bulkQty) m else m

/-- Sidebar configuration (`app.py` lines 104-112). -/
structure Config where
  vendorName : String
  defaultQty : Nat
  bulkQtyMode : Bool
  bulkQty : Nat
deriving DecidableEq

/-- The quantity dictionary visible at export time.  Processing a file sets
`st.session_state.variant_quantities = {}` (`app.py` line 301), so the guarded
initialisation receives `some []`; `userWrites` are explicit per-key writes made
through the interactive widgets on later reruns; finally the bulk pass of the
current run is applied. -/
def quantitiesAfterRun (exploded : List ExplodedRow) (cfg : Config)
    (userWrites : List (String × Nat)) : QtyMap :=
  let uniq := uniqueVariants exploded
  let m0 := initVariantQuantities (some []) uniq cfg.defaultQty
  let m1 := userWrites.foldl (fun m p => setKey m p.1 p.2) m0
  applyBulk cfg.bulkQtyMode cfg.bulkQty uniq m1

/-- Quantity of one exploded row:
`df["_variant_key"].map(variant_qty_map).fillna(0)` (`app.py` line 446). -/
def resolveQty (m : QtyMap) (v : ExplodedRow) : Nat :=
  (lookupKey m (rowKey v)).getD 0

/-- The `Published` column (`app.py` line 469): a present value is
lower-cased and compared with `"active"`, giving `"TRUE"` or `"FALSE"`; when
the published column is missing, the empty-Series default of `df.get` aligns
to NaN in the output frame, so the field stays empty (`none` here, an empty
CSV field), never `"FALSE"`. -/
def publishedFlag (published : Option String) : Option String :=
  match published with
  | some s => some (if strToLower s = "active" then "TRUE" else "FALSE")
  | none => none

/-- One output record: the Shopify columns relevant to the verified
properties (`app.py` lines 461-488); the numeric price coercions are not
modelled. -/
structure OutRow where
  handle : String
  title : String
  bodyHtml : String
  vendor : String
  productCategory : String
  productType : String
  tags : String
  published : Option String
  option1Name : String
  option1Value : String
  option2Name : String
  option2Value : String
  sku : String
  variantGrams : Nat
  inventoryQty : Nat
  fulfillmentService : String
  requiresShipping : String
  taxable : String
deriving DecidableEq

/-- Mapping of one exploded row onto the output schema
(`app.py` lines 461-488). -/
def outRowOf (cfg : Config) (slugs : List String) (m : QtyMap) (v : ExplodedRow) : OutRow :=
  { handle := handleFor slugs (baseHandle v)
    title := v.src.title
    bodyHtml := "<p>" ++ v.customDescription ++ "</p>"
    vendor := cfg.vendorName
    productCategory := v.src.productCategory.getD ""
    productType := v.src.productType.getD ""
    tags := v.aiTags
    published := publishedFlag v.src.published
    option1Name := "Size"
    option1Value := v.sizeValue
    option2Name := "Color"
    option2Value := v.colourValue
    sku := v.src.productCode.getD "" ++ "-" ++ serialFor slugs (baseHandle v)
            ++ "-" ++ v.sizeValue ++ "-" ++ v.colourValue
    variantGrams := 0
    inventoryQty := resolveQty m v
    fulfillmentService := "manual"
    requiresShipping := "TRUE"
    taxable := "TRUE" }

/-- The `_base_handle` column of the full pipeline. -/
def pipelineSlugs (mode : Mode) (aiEnabled : Bool) (collab : Collab)
    (rows : List SourceRow) : List String :=
  explodedSlugs (explodedRows mode aiEnabled collab rows)

/-- The quantity dictionary of the full pipeline. -/
def pipelineQtyMap (mode : Mode) (aiEnabled : Bool) (collab : Collab) (cfg : Config)
    (userWrites : List (String × Nat)) (rows : List SourceRow) : QtyMap :=
  quantitiesAfterRun (explodedRows mode aiEnabled collab rows) cfg userWrites

/-- The full pipeline: enrichment, expansion, handle assignment, quantity
resolution and output mapping. -/
def buildOutput (mode : Mode) (aiEnabled : Bool) (collab : Collab) (cfg : Config)
    (userWrites : List (String × Nat)) (rows : List SourceRow) : List OutRow :=
  (explodedRows mode aiEnabled collab rows).map
    (outRowOf cfg (pipelineSlugs mode aiEnabled collab rows)
      (pipelineQtyMap mode aiEnabled collab cfg userWrites rows))

/-- The output rows generated from one source row of the table. -/
def outputsOfRow (mode : Mode) (aiEnabled : Bool) (collab : Collab) (cfg : Config)
    (userWrites : List (String × Nat)) (rows : List SourceRow) (r : SourceRow) : List OutRow :=
  (explodeOne mode aiEnabled collab r).map
    (outRowOf cfg (pipelineSlugs mode aiEnabled collab rows)
      (pipelineQtyMap mode aiEnabled collab cfg userWrites rows))

/-- Modelled from the spec: the first-sentence rule as the specification words
it, "text up to and including the first sentence terminator (`.`) in the
original description, trimmed"; stated only to be compared with the
source-derived `firstSentence`. -/
def firstSentenceInclusiveSpec (s : String) : String :=
  match strSplitOnChar '.' s with
  | p :: _ :: _ => strTrim (p ++ ".")
  | _ => strTrim s

end ShopifyBuilder

namespace ShopifyBuilder

/-! ### General lemmas about the embedding -/

lemma length_flatMap_const {α β : Type} (l : List α) (f : α → List β) (n : Nat)
    (h : ∀ a ∈ l, (f a).length = n) : (l.flatMap f).length = l.length * n := by
  induction l with
  | nil => simp
  | cons a t ih =>
      simp only [List.flatMap_cons, List.length_append, List.length_cons,
        h a (List.mem_cons_self a t), ih (fun b hb => h b (List.mem_cons_of_mem a hb))]
      ring

lemma tokensOrDefault_eq (s : String) :
    tokensOrDefault s = if splitTokens s = [] then [""] else splitTokens s := rfl

lemma tokensOrDefault_ne_nil (s : String) : tokensOrDefault s ≠ [] := by
  rw [tokensOrDefault_eq]
  by_cases h : splitTokens s = []
  · simp [h]
  · rw [if_neg h]
    exact h

lemma length_tokensOrDefault (s : String) :
    (tokensOrDefault s).length
      = if (splitTokens s).length = 0 then 1 else (splitTokens s).length := by
  rw [tokensOrDefault_eq]
  by_cases h : splitTokens s = []
  · simp [h]
  · rw [if_neg h, if_neg (by simpa [List.length_eq_zero] using h)]

lemma length_explodeOne (mode : Mode) (ai : Bool) (collab : Collab) (r : SourceRow) :
    (explodeOne mode ai collab r).length
      = (tokensOrDefault (r.size.getD "")).length * (tokensOrDefault (r.colour.getD "")).length := by
  unfold explodeOne
  exact length_flatMap_const _ _ _ (fun a _ => List.length_map _ _)

lemma explodeOne_ne_nil (mode : Mode) (ai : Bool) (collab : Collab) (r : SourceRow) :
    explodeOne mode ai collab r ≠ [] := by
  have h := length_explodeOne mode ai collab r
  intro hnil
  rw [hnil] at h
  simp only [List.length_nil] at h
  have h1 := tokensOrDefault_ne_nil (r.size.getD "")
  have h2 := tokensOrDefault_ne_nil (r.colour.getD "")
  rw [← List.length_pos] at h1 h2
  have hpos := Nat.mul_pos h1 h2
  rw [← h] at hpos
  exact Nat.lt_irrefl 0 hpos

lemma mem_explodeOne_elim {mode : Mode} {ai : Bool} {collab : Collab} {r : SourceRow}
    {v : ExplodedRow} (hv : v ∈ explodeOne mode ai collab r) :
    v.src = r ∧ v.customDescription = (enrichRow mode ai collab r).desc
      ∧ v.aiTags = (enrichRow mode ai collab r).tags
      ∧ v.sizeValue ∈ tokensOrDefault (r.size.getD "")
      ∧ v.colourValue ∈ tokensOrDefault (r.colour.getD "") := by
  unfold explodeOne at hv
  rw [List.mem_flatMap] at hv
  obtain ⟨s, hs, hv⟩ := hv
  rw [List.mem_map] at hv
  obtain ⟨c, hc, rfl⟩ := hv
  exact ⟨rfl, rfl, rfl, hs, hc⟩

lemma exists_mem_explodeOne (mode : Mode) (ai : Bool) (collab : Collab) (r : SourceRow) :
    ∃ v, v ∈ explodeOne mode ai collab r :=
  List.exists_mem_of_ne_nil _ (explodeOne_ne_nil mode ai collab r)

end ShopifyBuilder

namespace ShopifyBuilder

/-! ### Concrete fixtures used by closed theorems -/

/-- A collaborator that always fails; also stands in for the unused client of
template mode. -/
def errCollab : Collab := fun _ => Except.error ""

/-- An empty source row. -/
def rowDefault : SourceRow :=
  { title := "", description := "", size := none, colour := none, productCode := none
    productCategory := none, productType := none, published := none }

/-- An empty exploded row, used as a `headD` default. -/
def xDefault : ExplodedRow :=
  { src := rowDefault, sizeValue := "", colourValue := "", customDescription := "", aiTags := "" }

/-- An empty output row, used as a `headD` default. -/
def outDefault : OutRow :=
  { handle := "", title := "", bodyHtml := "", vendor := "", productCategory := ""
    productType := "", tags := "", published := none, option1Name := "", option1Value := ""
    option2Name := "", option2Value := "", sku := "", variantGrams := 0, inventoryQty := 0
    fulfillmentService := "", requiresShipping := "", taxable := "" }

/-- A configuration with default quantity 10 and bulk mode off. -/
def sampleCfg : Config :=
  { vendorName := "V", defaultQty := 10, bulkQtyMode := false, bulkQty := 0 }

/-- A product row with a two-sentence description. -/
def simpleRow : SourceRow :=
  { rowDefault with title := "Tee", description := "Soft tee. Very nice." }

/-- Two distinct source rows sharing the title `"Tee"`. -/
def teeRowA : SourceRow := { simpleRow with productCode := some "A" }

/-- Second of the two distinct source rows sharing the title `"Tee"`. -/
def teeRowB : SourceRow := { simpleRow with productCode := some "B" }

/-- A row whose published value is `"Active"`. -/
def activeRow : SourceRow := { rowDefault with title := "Tee", published := some "Active" }

/-- A row whose published value carries a leading space. -/
def pubSpaceRow : SourceRow := { rowDefault with title := "Tee", published := some " active" }

/-- The SKU example row: code `"ABC"`, one size `"M"`, one colour `"Red"`. -/
def skuRow : SourceRow :=
  { rowDefault with title := "Tee", productCode := some "ABC", size := some "M"
                    colour := some "Red", published := some "active" }

/-- The quantity example row: one `"M"` by `"Red"` variant of `"Shirt"`. -/
def qtyRow : SourceRow :=
  { rowDefault with title := "Shirt", size := some "M", colour := some "Red" }

/-- The end-to-end example row: sizes `"S,M"`, colours `"Red,Blue"`. -/
def teeFullRow : SourceRow :=
  { rowDefault with title := "Tee", description := "Soft tee. Very nice."
                    size := some "S,M", colour := some "Red,Blue"
                    productCode := some "T1", productCategory := some "Apparel"
                    published := some "active" }

/-! ### C2: variant expansion count -/

/-- C2: for every SourceRow, after splitting the size and colour fields on
commas, trimming tokens and dropping empty tokens, the expander emits exactly
S×C variant rows, where an empty (or missing) list counts as a single
empty-string token; the row is never dropped. -/
theorem C2_variant_expansion_count (mode : Mode) (ai : Bool) (collab : Collab) (r : SourceRow) :
    (explodeOne mode ai collab r).length
        = (if (splitTokens (r.size.getD "")).length = 0 then 1
           else (splitTokens (r.size.getD "")).length)
          * (if (splitTokens (r.colour.getD "")).length = 0 then 1
             else (splitTokens (r.colour.getD "")).length)
      ∧ explodeOne mode ai collab r ≠ [] := by
  constructor
  · rw [length_explodeOne, length_tokensOrDefault, length_tokensOrDefault]
  · exact explodeOne_ne_nil mode ai collab r

end ShopifyBuilder

namespace ShopifyBuilder

/-! ### C1: handles of rows with equal title slugs -/

/-- C1 counterexample: two different SourceRows with the same title slug
receive the SAME serial and hence the same Handle (`"tee-01"` for both), not
different ones as claimed. -/
theorem C1_counterexample :
    teeRowA ≠ teeRowB
    ∧ slug teeRowA.title = slug teeRowB.title
    ∧ (buildOutput Mode.template false errCollab sampleCfg [] [teeRowA, teeRowB]).map
        (fun o => o.handle) = ["tee-01", "tee-01"] := by decide

/-- C1 (amended): two SourceRows of the table whose titles slugify to the same
slug receive the same sequence number and the same Handle (serials are
assigned per distinct slug value in first-seen order, starting at 1,
zero-padded to width 2); in particular all variant rows originating from one
SourceRow share one Handle. -/
theorem C1_shared_handle_per_slug (mode : Mode) (ai : Bool) (collab : Collab) (cfg : Config)
    (writes : List (String × Nat)) (rows : List SourceRow)
    (r₁ r₂ : SourceRow) (h₁ : r₁ ∈ rows) (h₂ : r₂ ∈ rows)
    (hs : slug r₁.title = slug r₂.title)
    (o₁ : OutRow) (ho₁ : o₁ ∈ outputsOfRow mode ai collab cfg writes rows r₁)
    (o₂ : OutRow) (ho₂ : o₂ ∈ outputsOfRow mode ai collab cfg writes rows r₂) :
    o₁.handle = o₂.handle
    ∧ o₁.handle = slug r₁.title ++ "-"
        ++ zfill 2 (Nat.repr
            (idxOfD (slug r₁.title) (firstSeen (pipelineSlugs mode ai collab rows)) + 1)) := by
  obtain ⟨v₁, hv₁, rfl⟩ := List.mem_map.mp ho₁
  obtain ⟨v₂, hv₂, rfl⟩ := List.mem_map.mp ho₂
  have e₁ := (mem_explodeOne_elim hv₁).1
  have e₂ := (mem_explodeOne_elim hv₂).1
  constructor
  · show handleFor _ (baseHandle v₁) = handleFor _ (baseHandle v₂)
    rw [baseHandle, baseHandle, e₁, e₂, hs]
  · show handleFor _ (baseHandle v₁) = _
    rw [baseHandle, e₁, handleFor, serialFor]

/-- Witness for C1: concrete two-row table with a shared title. -/
theorem C1_shared_handle_per_slug_witness :
    ((outputsOfRow Mode.template false errCollab sampleCfg [] [teeRowA, teeRowB] teeRowA).headD
        outDefault).handle
      = ((outputsOfRow Mode.template false errCollab sampleCfg [] [teeRowA, teeRowB] teeRowB).headD
          outDefault).handle :=
  (C1_shared_handle_per_slug Mode.template false errCollab sampleCfg [] [teeRowA, teeRowB]
    teeRowA teeRowB (by decide) (by decide) (by decide)
    _ (by decide) _ (by decide)).1

end ShopifyBuilder

namespace ShopifyBuilder

/-! ### C4: simple-mode first sentence -/

/-- C4 counterexample: simple mode produces the text strictly BEFORE the first
`"."` (`"Soft tee"`), not the text up to and including it (`"Soft tee."`) as
claimed. -/
theorem C4_counterexample :
    (enrichRow Mode.simple false errCollab simpleRow).desc = "Soft tee"
    ∧ firstSentenceInclusiveSpec simpleRow.description = "Soft tee."
    ∧ (enrichRow Mode.simple false errCollab simpleRow).desc
        ≠ firstSentenceInclusiveSpec simpleRow.description := by decide

/-- C4 (amended): in simple mode every variant row's description equals the
text of the original description strictly before the first `"."` (the whole
text when there is none), trimmed, and the tag collaborator is called with
that same sentence. -/
theorem C4_simple_mode_first_sentence (ai : Bool) (collab : Collab) (rows : List SourceRow)
    (v : ExplodedRow) (hv : v ∈ explodedRows Mode.simple ai collab rows) :
    v.customDescription = firstSentence v.src.description
    ∧ v.aiTags = (tags_only ai collab (firstSentence v.src.description)).tags := by
  obtain ⟨r, hr, hv⟩ := List.mem_flatMap.mp hv
  obtain ⟨hsrc, hdesc, htags, -, -⟩ := mem_explodeOne_elim hv
  rw [hsrc, hdesc, htags]
  exact ⟨rfl, rfl⟩

/-- Witness for C4: the concrete two-sentence row. -/
theorem C4_simple_mode_first_sentence_witness :
    ((explodedRows Mode.simple false errCollab [simpleRow]).headD xDefault).customDescription
      = "Soft tee" :=
  (C4_simple_mode_first_sentence false errCollab [simpleRow]
      ((explodedRows Mode.simple false errCollab [simpleRow]).headD xDefault)
      (by decide)).1.trans (by decide)

/-! ### C5: the Published column -/

/-- C5 counterexample: the code lower-cases but does not trim the published
value, so `" active"` yields `"FALSE"` although the claimed
lower-case-and-trim rule yields `"TRUE"`; and a row table without a published
column yields an empty Published field, not `"FALSE"`. -/
theorem C5_counterexample :
    (buildOutput Mode.template false errCollab sampleCfg [] [pubSpaceRow]).map
        (fun o => o.published) = [some "FALSE"]
    ∧ strTrim (strToLower " active") = "active"
    ∧ (buildOutput Mode.template false errCollab sampleCfg [] [simpleRow]).map
        (fun o => o.published) = [none] := by decide

lemma publishedFlag_spec (p : Option String) :
    ((∃ s, p = some s) → (publishedFlag p = some "TRUE" ∨ publishedFlag p = some "FALSE"))
    ∧ (publishedFlag p = some "TRUE" ↔ ∃ s, p = some s ∧ strToLower s = "active")
    ∧ (p = none → publishedFlag p = none) := by
  cases p with
  | none =>
      refine ⟨?_, ⟨?_, ?_⟩, fun _ => rfl⟩
      · rintro ⟨s, hs⟩
        cases hs
      · intro h
        exact absurd h (by decide)
      · rintro ⟨s, hs, -⟩
        cases hs
  | some s =>
      by_cases hs : strToLower s = "active"
      · refine ⟨fun _ => Or.inl ?_, ⟨?_, ?_⟩, ?_⟩
        · rw [publishedFlag, if_pos hs]
        · intro _
          exact ⟨s, rfl, hs⟩
        · intro _
          rw [publishedFlag, if_pos hs]
        · intro h
          cases h
      · refine ⟨fun _ => Or.inr ?_, ⟨?_, ?_⟩, ?_⟩
        · rw [publishedFlag, if_neg hs]
        · intro h
          rw [publishedFlag, if_neg hs] at h
          exact absurd h (by decide)
        · rintro ⟨t, ht, hlow⟩
          cases ht
          exact absurd hlow hs
        · intro h
          cases h

/-- C5 (amended): when the published column is present, the Published field is
`"TRUE"` iff the row's published value, lower-cased (without trimming), equals
`"active"`, and `"FALSE"` otherwise; when the published column is missing, the
field is left empty (NaN in the output frame), never `"FALSE"`. -/
theorem C5_published_mapping (mode : Mode) (ai : Bool) (collab : Collab) (cfg : Config)
    (writes : List (String × Nat)) (rows : List SourceRow) (r : SourceRow) (hr : r ∈ rows)
    (o : OutRow) (ho : o ∈ outputsOfRow mode ai collab cfg writes rows r) :
    ((∃ s, r.published = some s) →
        (o.published = some "TRUE" ∨ o.published = some "FALSE"))
    ∧ (o.published = some "TRUE" ↔ ∃ s, r.published = some s ∧ strToLower s = "active")
    ∧ (r.published = none → o.published = none) := by
  obtain ⟨v, hv, rfl⟩ := List.mem_map.mp ho
  have hsrc := (mem_explodeOne_elim hv).1
  show ((∃ s, r.published = some s) →
        (publishedFlag v.src.published = some "TRUE"
          ∨ publishedFlag v.src.published = some "FALSE"))
    ∧ (publishedFlag v.src.published = some "TRUE"
        ↔ ∃ s, r.published = some s ∧ strToLower s = "active")
    ∧ (r.published = none → publishedFlag v.src.published = none)
  rw [hsrc]
  exact publishedFlag_spec r.published

/-- Witness for C5: the concrete `"Active"` row maps to `"TRUE"`. -/
theorem C5_published_mapping_witness :
    ((outputsOfRow Mode.template false errCollab sampleCfg [] [activeRow] activeRow).headD
        outDefault).published = some "TRUE" :=
  (C5_published_mapping Mode.template false errCollab sampleCfg [] [activeRow] activeRow
      (by decide) _ (by decide)).2.1.mpr ⟨"Active", rfl, by decide⟩

/-! ### C6: collaborator failure handling -/

/-- C6 counterexample: in simple mode a failed tag call leaves the description
as the locally computed first sentence (`"Soft tee"`), which differs from the
original description, contradicting the claimed fallback to the original
unmodified text. -/
theorem C6_counterexample :
    enrichRow Mode.simple true (fun _ => Except.error "boom") simpleRow
      = { desc := "Soft tee", tags := "", warnings := ["AI tag generation failed: boom"] }
    ∧ (enrichRow Mode.simple true (fun _ => Except.error "boom") simpleRow).desc
        ≠ simpleRow.description := by decide

/-- C6 (amended): every collaborator failure is caught locally with a
non-fatal warning and empty tags, and processing of the remaining rows
continues (the expansion has the same length as with a succeeding
collaborator); in full mode the description falls back to the original
unmodified, while in simple mode it is the locally computed first sentence,
unaffected by the failure. -/
theorem C6_failure_fallback (e : String) (collab : Collab)
    (hc : ∀ p, collab p = Except.error e) (r : SourceRow)
    (mode : Mode) (ai : Bool) (rows : List SourceRow) :
    enrichRow Mode.full true collab r
      = { desc := r.description, tags := "", warnings := ["AI processing failed: " ++ e] }
    ∧ enrichRow Mode.simple true collab r
      = { desc := firstSentence r.description, tags := ""
          warnings := ["AI tag generation failed: " ++ e] }
    ∧ (explodedRows mode ai collab rows).length
        = (explodedRows mode ai (fun _ => Except.ok "") rows).length := by
  refine ⟨?_, ?_, ?_⟩
  · rw [enrichRow, refine_and_tag]
    simp [hc]
  · rw [enrichRow]
    simp [tags_only, hc]
  · rw [explodedRows, explodedRows]
    induction rows with
    | nil => rfl
    | cons a t ih =>
        rw [List.flatMap_cons, List.flatMap_cons, List.length_append, List.length_append,
          length_explodeOne, length_explodeOne, ih]

/-- Witness for C6: the always-failing collaborator on the concrete row. -/
theorem C6_failure_fallback_witness :
    enrichRow Mode.full true (fun _ => Except.error "boom") simpleRow
      = { desc := simpleRow.description, tags := ""
          warnings := ["AI processing failed: boom"] } :=
  (C6_failure_fallback "boom" (fun _ => Except.error "boom") (fun _ => rfl) simpleRow
    Mode.simple true [simpleRow]).1

end ShopifyBuilder

namespace ShopifyBuilder

/-! ### C7: SKU composition -/

/-- C7: every output row's Variant SKU is the source product code, the owning
Handle's serial, the size token and the colour token joined by `"-"`. -/
theorem C7_sku_composition (mode : Mode) (ai : Bool) (collab : Collab) (cfg : Config)
    (writes : List (String × Nat)) (rows : List SourceRow) (r : SourceRow) (hr : r ∈ rows)
    (o : OutRow) (ho : o ∈ outputsOfRow mode ai collab cfg writes rows r) :
    o.sku = r.productCode.getD "" ++ "-"
        ++ serialFor (pipelineSlugs mode ai collab rows) (slug r.title)
        ++ "-" ++ o.option1Value ++ "-" ++ o.option2Value := by
  obtain ⟨v, hv, rfl⟩ := List.mem_map.mp ho
  have hsrc := (mem_explodeOne_elim hv).1
  show v.src.productCode.getD "" ++ "-" ++ serialFor _ (baseHandle v)
      ++ "-" ++ v.sizeValue ++ "-" ++ v.colourValue = _
  rw [baseHandle, hsrc]
  rfl

/-- Witness for C7: code `"ABC"`, serial `"01"`, size `"M"`, colour `"Red"`
give SKU `"ABC-01-M-Red"`. -/
theorem C7_sku_composition_witness :
    ((outputsOfRow Mode.template false errCollab sampleCfg [] [skuRow] skuRow).headD
        outDefault).sku = "ABC-01-M-Red" :=
  (C7_sku_composition Mode.template false errCollab sampleCfg [] [skuRow] skuRow
      (by decide) _ (by decide)).trans (by decide)

/-! ### C10: Body (HTML) wrapping -/

/-- C10: in every enrichment mode, the Body (HTML) column of the output table
is, row by row, the literal `"<p>"`, the enrichment-stage description of the
corresponding exploded row, then `"</p>"`. -/
theorem C10_body_html_wrapping (mode : Mode) (ai : Bool) (collab : Collab) (cfg : Config)
    (writes : List (String × Nat)) (rows : List SourceRow) :
    (buildOutput mode ai collab cfg writes rows).map (fun o => o.bodyHtml)
      = (explodedRows mode ai collab rows).map
          (fun v => "<p>" ++ v.customDescription ++ "</p>") := by
  rw [buildOutput, List.map_map]
  rfl

/-! ### C3: quantity resolution -/

/-- C3 exhibit of the code bug: with bulk mode off, default quantity 10 and no
explicit override, the exported quantity is 0, not the default: processing
always sets the session quantity dictionary to the empty dictionary
(`app.py` line 301) before the guarded default pre-population
(`app.py` lines 332-337), which is therefore never executed, and the final
`fillna(0)` turns the missed lookup into 0.  Had the pre-population run, the
same key would resolve to 10 (last conjunct). -/
theorem C3_default_quantity_bug :
    (buildOutput Mode.template false errCollab sampleCfg [] [qtyRow]).map
        (fun o => o.inventoryQty) = [0]
    ∧ sampleCfg.defaultQty = 10
    ∧ sampleCfg.bulkQtyMode = false
    ∧ lookupKey
        (prepopulateDefaults
          (uniqueVariants (explodedRows Mode.template false errCollab [qtyRow]))
          sampleCfg.defaultQty)
        (rowKey ((explodedRows Mode.template false errCollab [qtyRow]).headD xDefault))
      = some 10 := by decide

end ShopifyBuilder

namespace ShopifyBuilder

/-! ### Lemmas about first-seen order and serial indices -/

lemma mem_firstSeen {α : Type} [DecidableEq α] (a : α) (l : List α) :
    a ∈ firstSeen l ↔ a ∈ l := by
  induction l with
  | nil => simp [firstSeen]
  | cons b t ih =>
      rw [firstSeen]
      by_cases hab : a = b
      · subst hab
        simp
      · simp only [List.mem_cons, List.mem_filter, decide_eq_true_eq]
        constructor
        · rintro (h | ⟨h, -⟩)
          · exact Or.inl h
          · exact Or.inr (ih.mp h)
        · rintro (h | h)
          · exact Or.inl h
          · exact Or.inr ⟨ih.mpr h, hab⟩

lemma nodup_firstSeen {α : Type} [DecidableEq α] (l : List α) : (firstSeen l).Nodup := by
  induction l with
  | nil => simp [firstSeen]
  | cons b t ih =>
      rw [firstSeen, List.nodup_cons]
      constructor
      · intro hmem
        rw [List.mem_filter, decide_eq_true_eq] at hmem
        exact hmem.2 rfl
      · exact ih.filter _

lemma idxOfD_get {α : Type} [DecidableEq α] :
    ∀ (l : List α), l.Nodup → ∀ (i : Fin l.length), idxOfD (l.get i) l = i := by
  intro l
  induction l with
  | nil =>
      intro _ i
      exact absurd i.isLt (by simp)
  | cons b t ih =>
      intro hnd i
      rw [List.nodup_cons] at hnd
      match i with
      | ⟨0, _⟩ => simp [idxOfD]
      | ⟨j+1, hj⟩ =>
          have hjt : j < t.length := Nat.lt_of_succ_lt_succ hj
          have hget : (b :: t).get ⟨j+1, hj⟩ = t.get ⟨j, hjt⟩ := rfl
          rw [hget, idxOfD]
          have hne : ¬ b = t.get ⟨j, hjt⟩ := by
            intro hbe
            exact hnd.1 (hbe ▸ List.get_mem t j hjt)
          rw [if_neg hne, ih hnd.2 ⟨j, hjt⟩]

/-! ### Serial strings are nonempty digit strings -/

lemma digitChar_isDigit {m : Nat} (h : m < 10) : (Nat.digitChar m).isDigit = true := by
  interval_cases m <;> decide

lemma toDigitsCore_digits :
    ∀ (fuel n : Nat) (ds : List Char), (∀ c ∈ ds, c.isDigit = true) →
      ∀ c ∈ Nat.toDigitsCore 10 fuel n ds, c.isDigit = true := by
  intro fuel
  induction fuel with
  | zero =>
      intro n ds hds
      simpa [Nat.toDigitsCore] using hds
  | succ f ih =>
      intro n ds hds c hc
      simp only [Nat.toDigitsCore] at hc
      have hd : (Nat.digitChar (n % 10)).isDigit = true :=
        digitChar_isDigit (Nat.mod_lt n (by decide))
      have hcons : ∀ x ∈ Nat.digitChar (n % 10) :: ds, x.isDigit = true := by
        intro x hx
        rcases List.mem_cons.mp hx with rfl | hx
        · exact hd
        · exact hds x hx
      by_cases hz : n / 10 = 0
      · rw [if_pos hz] at hc
        exact hcons c hc
      · rw [if_neg hz] at hc
        exact ih (n / 10) _ hcons c hc

lemma toDigitsCore_ne_nil :
    ∀ (fuel n : Nat) (ds : List Char), ds ≠ [] → Nat.toDigitsCore 10 fuel n ds ≠ [] := by
  intro fuel
  induction fuel with
  | zero =>
      intro n ds h
      simpa [Nat.toDigitsCore] using h
  | succ f ih =>
      intro n ds h
      simp only [Nat.toDigitsCore]
      by_cases hz : n / 10 = 0
      · rw [if_pos hz]
        exact List.cons_ne_nil _ _
      · rw [if_neg hz]
        exact ih (n / 10) _ (List.cons_ne_nil _ _)

lemma repr_data_eq (n : Nat) : (Nat.repr n).data = Nat.toDigits 10 n := rfl

lemma repr_data_digits (n : Nat) : ∀ c ∈ (Nat.repr n).data, c.isDigit = true := by
  rw [repr_data_eq, Nat.toDigits]
  exact toDigitsCore_digits (n + 1) n []
    (by intro c hc; exact absurd hc (List.not_mem_nil c))

lemma zfill_data (w : Nat) (s : String) :
    (zfill w s).data = List.replicate (w - s.length) '0' ++ s.data := by
  rw [zfill]
  by_cases h : w ≤ s.length
  · rw [if_pos h, Nat.sub_eq_zero_of_le h, List.replicate_zero, List.nil_append]
  · rw [if_neg h]

lemma serial_digits (slugs : List String) (s : String) :
    ∀ c ∈ (serialFor slugs s).data, c.isDigit = true := by
  rw [serialFor]
  intro c hc
  rw [zfill_data] at hc
  rcases List.mem_append.mp hc with h | h
  · rw [List.eq_of_mem_replicate h]
    decide
  · exact repr_data_digits _ c h

/-! ### Injectivity of handle assembly -/

lemma dropWhile_all_append {α : Type} (p : α → Bool) :
    ∀ (l₁ : List α) (c : α) (l₂ : List α), (∀ x ∈ l₁, p x = true) → p c = false →
      (l₁ ++ c :: l₂).dropWhile p = c :: l₂ := by
  intro l₁
  induction l₁ with
  | nil =>
      intro c l₂ _ hc
      simp [List.dropWhile_cons, hc]
  | cons a t ih =>
      intro c l₂ h hc
      have ha : p a = true := h a (List.mem_cons_self a t)
      simp only [List.cons_append, List.dropWhile_cons, ha, if_true]
      exact ih c l₂ (fun x hx => h x (List.mem_cons_of_mem a hx)) hc

lemma append_serial_inj {s₁ s₂ z₁ z₂ : String}
    (hz₁ : ∀ c ∈ z₁.data, c.isDigit = true) (hz₂ : ∀ c ∈ z₂.data, c.isDigit = true)
    (h : s₁ ++ "-" ++ z₁ = s₂ ++ "-" ++ z₂) : s₁ = s₂ := by
  have hdash : ("-" : String).data = ['-'] := rfl
  have hd : s₁.data ++ '-' :: z₁.data = s₂.data ++ '-' :: z₂.data := by
    have h2 := congrArg String.data h
    rw [String.data_append, String.data_append, String.data_append, String.data_append,
      hdash] at h2
    simpa [List.append_assoc] using h2
  have hrev : z₁.data.reverse ++ '-' :: s₁.data.reverse
      = z₂.data.reverse ++ '-' :: s₂.data.reverse := by
    have h3 := congrArg List.reverse hd
    simpa [List.reverse_append] using h3
  have e₁ : (z₁.data.reverse ++ '-' :: s₁.data.reverse).dropWhile Char.isDigit
      = '-' :: s₁.data.reverse :=
    dropWhile_all_append Char.isDigit z₁.data.reverse '-' s₁.data.reverse
      (fun x hx => hz₁ x (List.mem_reverse.mp hx)) (by decide)
  have e₂ : (z₂.data.reverse ++ '-' :: s₂.data.reverse).dropWhile Char.isDigit
      = '-' :: s₂.data.reverse :=
    dropWhile_all_append Char.isDigit z₂.data.reverse '-' s₂.data.reverse
      (fun x hx => hz₂ x (List.mem_reverse.mp hx)) (by decide)
  have hcons : '-' :: s₁.data.reverse = '-' :: s₂.data.reverse := by
    rw [← e₁, ← e₂, hrev]
  have hrev2 : s₁.data.reverse = s₂.data.reverse := by
    injection hcons
  exact String.ext (List.reverse_injective hrev2)

lemma handleFor_injective (slugs : List String) : Function.Injective (handleFor slugs) := by
  intro s₁ s₂ h
  rw [handleFor, handleFor] at h
  exact append_serial_inj (serial_digits slugs s₁) (serial_digits slugs s₂) h

end ShopifyBuilder

namespace ShopifyBuilder

/-! ### C8: distinct handle count -/

lemma baseHandle_of_mem_explodeOne {mode : Mode} {ai : Bool} {collab : Collab}
    {r : SourceRow} {v : ExplodedRow} (hv : v ∈ explodeOne mode ai collab r) :
    baseHandle v = slug r.title := by
  rw [baseHandle, (mem_explodeOne_elim hv).1]

lemma mem_pipelineSlugs (mode : Mode) (ai : Bool) (collab : Collab) (rows : List SourceRow)
    (a : String) :
    a ∈ pipelineSlugs mode ai collab rows ↔ ∃ r ∈ rows, slug r.title = a := by
  rw [pipelineSlugs, explodedSlugs, explodedRows]
  constructor
  · intro ha
    obtain ⟨v, hv, rfl⟩ := List.mem_map.mp ha
    obtain ⟨r, hr, hvr⟩ := List.mem_flatMap.mp hv
    exact ⟨r, hr, (baseHandle_of_mem_explodeOne hvr).symm⟩
  · rintro ⟨r, hr, rfl⟩
    obtain ⟨v, hv⟩ := exists_mem_explodeOne mode ai collab r
    exact List.mem_map.mpr ⟨v, List.mem_flatMap.mpr ⟨r, hr, hv⟩, baseHandle_of_mem_explodeOne hv⟩

/-- C8: for every input table, the number of distinct Handles over all output
rows equals the number of distinct title slugs of the source rows. -/
theorem C8_distinct_handle_count (mode : Mode) (ai : Bool) (collab : Collab) (cfg : Config)
    (writes : List (String × Nat)) (rows : List SourceRow) :
    ((buildOutput mode ai collab cfg writes rows).map (fun o => o.handle)).toFinset.card
      = ((rows.map (fun r => slug r.title)).toFinset).card := by
  have hmap : (buildOutput mode ai collab cfg writes rows).map (fun o => o.handle)
      = (pipelineSlugs mode ai collab rows).map
          (handleFor (pipelineSlugs mode ai collab rows)) := by
    rw [buildOutput, List.map_map, pipelineSlugs, explodedSlugs, List.map_map]
    rfl
  rw [hmap]
  have himg : ((pipelineSlugs mode ai collab rows).map
        (handleFor (pipelineSlugs mode ai collab rows))).toFinset
      = (pipelineSlugs mode ai collab rows).toFinset.image
          (handleFor (pipelineSlugs mode ai collab rows)) := by
    ext a
    simp [List.mem_map, Finset.mem_image]
  rw [himg, Finset.card_image_of_injective _ (handleFor_injective _)]
  have hsetfeq : (pipelineSlugs mode ai collab rows).toFinset
      = (rows.map (fun r => slug r.title)).toFinset := by
    ext a
    rw [List.mem_toFinset, List.mem_toFinset, mem_pipelineSlugs, List.mem_map]
  rw [hsetfeq]

/-! ### C9: serials beyond 99 distinct slugs -/

/-- C9: the serial of the (i+1)-st distinct slug (0-based position i in the
first-seen unique list) is always the full decimal rendering of i+1,
zero-padded to at least two digits and never wrapped or truncated (`"100"` for
the 100th), and handles of distinct slugs stay distinct. -/
theorem C9_serial_no_wrap (slugs : List String) (i : Nat)
    (h : i < (firstSeen slugs).length) :
    serialFor slugs ((firstSeen slugs).get ⟨i, h⟩) = zfill 2 (Nat.repr (i + 1))
    ∧ (∀ s₁ s₂ : String, s₁ ≠ s₂ → handleFor slugs s₁ ≠ handleFor slugs s₂)
    ∧ zfill 2 (Nat.repr 100) = "100" := by
  refine ⟨?_, ?_, by decide⟩
  · rw [serialFor, idxOfD_get (firstSeen slugs) (nodup_firstSeen slugs) ⟨i, h⟩]
  · intro s₁ s₂ hne heq
    exact hne (handleFor_injective slugs heq)

/-- Witness for C9 at the singleton slug list. -/
theorem C9_serial_no_wrap_witness :
    serialFor ["tee"] ((firstSeen ["tee"]).get ⟨0, by decide⟩) = zfill 2 (Nat.repr (0 + 1))
    ∧ (∀ s₁ s₂ : String, s₁ ≠ s₂ → handleFor ["tee"] s₁ ≠ handleFor ["tee"] s₂)
    ∧ zfill 2 (Nat.repr 100) = "100" :=
  C9_serial_no_wrap ["tee"] 0 (by decide)

end ShopifyBuilder
